import Mathlib

/-!
Shallow embedding of `generate_models.py` from the
Image-Style-Transfer-with-WebAssembly repository.

The script builds, per style-name string, a short linear ONNX graph of
elementwise arithmetic nodes and serializes it to a file under
`public/models`.  We embed:

* the node / value-info / graph / model records that the `onnx.helper`
  calls construct (`make_node`, `make_tensor_value_info`, `make_graph`,
  `make_model`), keeping exactly the fields the script sets;
* `create_style_transfer_model` as a pure graph construction
  (`buildGraph` / `buildModel`) plus an effectful wrapper (`create_run`)
  over an explicit filesystem state, where the possibility that the
  external library or the filesystem raises is represented by an oracle
  `failAt : String → Option String` giving the exception message, if any,
  raised while handling a given style;
* `main` as `mainRun`: the `os.path.join`/slug computation, the per-style
  `try/except` loop and the console messages, accumulated in order.

Numeric constants written in the script (`1.4`, `0.1`, `255.0`, ...) are
represented as rationals; serialization of a model is represented by the
model value itself (the external protobuf encoding is injective on the
data the script sets, and no claim depends on the byte encoding).
`shape_inference.infer_shapes` is an external pass that leaves the node
list and the declared graph inputs/outputs unchanged; it is modelled as
the identity on the model record.
-/

namespace StyleTransferGen

/-- Contiguous-sublist test: does `pat` occur as a contiguous run in the
list? -/
def hasInfixRun (pat : List Char) : List Char → Bool
  | [] => pat.isPrefixOf []
  | c :: rest => pat.isPrefixOf (c :: rest) || hasInfixRun pat rest

/-- Python's `sub in s` substring test, on the character lists. -/
def containsSub (s sub : String) : Bool :=
  hasInfixRun sub.toList s.toList

/-- Strip `pat` from the front of the list, returning the remainder if it
matches. -/
def stripFront : List Char → List Char → Option (List Char)
  | [], l => some l
  | _ :: _, [] => none
  | p :: ps, c :: cs => if p = c then stripFront ps cs else none

/-- Fuel-driven core of Python's `str.replace`: scan left to right,
replacing non-overlapping occurrences of `pat` by `rep`.  The fuel
bounds the number of scan steps; each step consumes at least one
character of a non-empty input, so `fuel = length of the input`
suffices. -/
def replaceFuel (pat rep : List Char) : Nat → List Char → List Char
  | _, [] => []
  | 0, l => l
  | Nat.succ fuel, c :: rest =>
    match stripFront pat (c :: rest) with
    | some remainder => rep ++ replaceFuel pat rep fuel remainder
    | none => c :: replaceFuel pat rep fuel rest

/-- Python's `s.replace(pat, rep)` (for the non-empty patterns the script
uses): replace every non-overlapping occurrence, scanning left to
right. -/
def pyReplace (s pat rep : String) : String :=
  ⟨replaceFuel pat.toList rep.toList s.toList.length s.toList⟩

/-- Python's `s.lower()` on the ASCII labels the script uses: lower-case
every character. -/
def pyLower (s : String) : String :=
  ⟨s.toList.map Char.toLower⟩

/-- A constant operand passed to `helper.make_node` via the
`attrs={'value': np.array(...)}` keyword: either a scalar or a
per-channel array of three floats. -/
inductive AttrVal where
  | scalar (v : ℚ)
  | perChannel (vs : List ℚ)
deriving DecidableEq

/-- One ONNX node as constructed by `helper.make_node` in the script:
operator type, input names, output names, node name, the optional
`attrs={'value': ...}` constant, and the optional `min=`/`max=` keywords
used only on the `Clip` node. -/
structure Node where
  opType : String
  inputs : List String
  outputs : List String
  name : String
  attrsValue : Option AttrVal := none
  clipMin : Option ℚ := none
  clipMax : Option ℚ := none
deriving DecidableEq

/-- A tensor value-info as constructed by `helper.make_tensor_value_info`:
name, element type, shape. -/
structure TensorValueInfo where
  name : String
  elemType : String
  shape : List Nat
deriving DecidableEq

/-- An ONNX graph as constructed by `helper.make_graph`:
node list, graph name, declared inputs and outputs. -/
structure Graph where
  nodes : List Node
  name : String
  inputs : List TensorValueInfo
  outputs : List TensorValueInfo
deriving DecidableEq

/-- The model container produced by `helper.make_model`. -/
structure ModelProto where
  graph : Graph
deriving DecidableEq

/-- `input_shape = [1, 3, 256, 256]` (line 16). -/
def input_shape : List Nat := [1, 3, 256, 256]

/-- `output_shape = [1, 3, 256, 256]` (line 17). -/
def output_shape : List Nat := [1, 3, 256, 256]

/-- `input_tensor = helper.make_tensor_value_info('input', FLOAT, input_shape)`. -/
def input_tensor : TensorValueInfo :=
  { name := "input", elemType := "FLOAT", shape := input_shape }

/-- `output_tensor = helper.make_tensor_value_info('output', FLOAT, output_shape)`. -/
def output_tensor : TensorValueInfo :=
  { name := "output", elemType := "FLOAT", shape := output_shape }

/-- The normalization node (lines 33-38): a `Div` with the single input
`'input'`, output `'normalized'`, name `'normalize'`, and no constant
operand attached. -/
def norm_node : Node :=
  { opType := "Div", inputs := ["input"], outputs := ["normalized"],
    name := "normalize" }

/-- The style-specific nodes appended by the `if/elif/else` chain on
`style_name` (lines 42-151): first matching substring wins, each branch
appending a `Mul` node and an `Add` node with its hard-coded constants,
and the final `else` appending a single `Identity` node. -/
def styleNodes (style_name : String) : List Node :=
  if containsSub style_name "Van Gogh" then
    [{ opType := "Mul", inputs := ["normalized"], outputs := ["colored"],
       name := "color_enhance",
       attrsValue := some (.perChannel [1.4, 1.2, 1.1]) },
     { opType := "Add", inputs := ["colored"], outputs := ["styled"],
       name := "add_effects", attrsValue := some (.scalar 0.1) }]
  else if containsSub style_name "Picasso" then
    [{ opType := "Mul", inputs := ["normalized"], outputs := ["contrast"],
       name := "contrast", attrsValue := some (.scalar 1.5) },
     { opType := "Add", inputs := ["contrast"], outputs := ["styled"],
       name := "add_geometric", attrsValue := some (.scalar 0.2) }]
  else if containsSub style_name "Cyberpunk" then
    [{ opType := "Mul", inputs := ["normalized"], outputs := ["neon"],
       name := "neon_scale",
       attrsValue := some (.perChannel [1.3, 0.8, 1.5]) },
     { opType := "Add", inputs := ["neon"], outputs := ["styled"],
       name := "add_glow", attrsValue := some (.scalar 0.2) }]
  else if containsSub style_name "Monet" then
    [{ opType := "Mul", inputs := ["normalized"], outputs := ["soft"],
       name := "soft_scale", attrsValue := some (.scalar 1.1) },
     { opType := "Add", inputs := ["soft"], outputs := ["styled"],
       name := "add_impressionist", attrsValue := some (.scalar 0.05) }]
  else if containsSub style_name "Anime" then
    [{ opType := "Mul", inputs := ["normalized"], outputs := ["saturated"],
       name := "saturate", attrsValue := some (.scalar 1.3) },
     { opType := "Add", inputs := ["saturated"], outputs := ["styled"],
       name := "add_anime", attrsValue := some (.scalar 0.1) }]
  else
    [{ opType := "Identity", inputs := ["normalized"], outputs := ["styled"],
       name := "identity" }]

/-- The clamp node (lines 154-161): `Clip` with `min=0.0, max=1.0`. -/
def clamp_node : Node :=
  { opType := "Clip", inputs := ["styled"], outputs := ["clamped"],
    name := "clamp", clipMin := some 0, clipMax := some 1 }

/-- The denormalization node (lines 165-171): `Mul` by constant `255.0`. -/
def denorm_node : Node :=
  { opType := "Mul", inputs := ["clamped"], outputs := ["output"],
    name := "denormalize", attrsValue := some (.scalar 255) }

/-- The full node list built by `create_style_transfer_model`:
`nodes = [norm_node] ++ style branch ++ [clamp_node, denorm_node]`
(successive `nodes.append` calls, lines 30-172). -/
def buildNodes (style_name : String) : List Node :=
  norm_node :: styleNodes style_name ++ [clamp_node, denorm_node]

/-- `helper.make_graph(nodes, f'{style_name}_style_transfer',
[input_tensor], [output_tensor])` (lines 175-180). -/
def buildGraph (style_name : String) : Graph :=
  { nodes := buildNodes style_name,
    name := style_name ++ "_style_transfer",
    inputs := [input_tensor],
    outputs := [output_tensor] }

/-- `shape_inference.infer_shapes` (line 186): an external pass leaving
the node list and declared inputs/outputs unchanged; modelled as the
identity on the model record. -/
def infer_shapes (m : ModelProto) : ModelProto := m

/-- `helper.make_model(graph)` followed by shape inference (lines 183-186). -/
def buildModel (style_name : String) : ModelProto :=
  infer_shapes { graph := buildGraph style_name }

/-- The filesystem, as a map from path to the model artifact stored there. -/
def FS : Type := String → Option ModelProto

/-- `open(output_path, 'wb')` + `f.write(...)` (lines 189-190):
store the artifact at the path, overwriting any existing file. -/
def writeFile (fs : FS) (path : String) (m : ModelProto) : FS :=
  fun q => if q = path then some m else fs q

/-- State threaded through a run: the filesystem and the console lines
printed so far, in order. -/
structure RunState where
  fs : FS
  out : List String

/-- `create_style_transfer_model(style_name, output_path)` as an
exception-returning state transformer (lines 12-192).  The oracle
`failAt` says whether handling this style raises an exception (in the
external library or the filesystem) and with which message; on success
the model is written to the path and the success line is printed. -/
def create_run (failAt : String → Option String)
    (style_name output_path : String) (st : RunState) :
    Except String RunState :=
  match failAt style_name with
  | some e => .error e
  | none =>
    .ok { fs := writeFile st.fs output_path (buildModel style_name),
          out := st.out ++ ["Created ONNX model: " ++ output_path] }

/-- The oracle for a run in which no exception is raised. -/
def noFail : String → Option String := fun _ => none

/-- The hard-coded style list in `main` (lines 202-208). -/
def styles : List String :=
  ["Van Gogh - Starry Night",
   "Picasso - Cubist",
   "Cyberpunk Neon",
   "Monet - Water Lilies",
   "Anime Studio Ghibli"]

/-- `filename = style.lower().replace(" - ", "_").replace(" ", "_") + ".onnx"`
(line 213). -/
def filenameFor (style : String) : String :=
  pyReplace (pyReplace (pyLower style) " - " "_") " " "_" ++ ".onnx"

/-- `output_path = os.path.join("public/models", filename)` (lines 198, 214). -/
def outputPathFor (style : String) : String :=
  "public/models/" ++ filenameFor style

/-- One iteration of the `for style in styles` loop (lines 211-219):
`try: create_style_transfer_model(...) except Exception as e: print(...)`. -/
def processStyle (failAt : String → Option String)
    (st : RunState) (style : String) : RunState :=
  match create_run failAt style (outputPathFor style) st with
  | .ok st' => st'
  | .error e =>
    { st with out := st.out ++ ["Failed to create model for " ++ style ++ ": " ++ e] }

/-- `main()` (lines 194-221): loop over the styles, then print the final
completion message. -/
def mainRun (failAt : String → Option String) (fs0 : FS) : RunState :=
  let st := styles.foldl (processStyle failAt) { fs := fs0, out := [] }
  { st with out := st.out ++ ["Model generation complete!"] }

/-- Checks that a node list forms a single linear chain from the given
source name: each node consumes exactly the single output of its
predecessor (the first consumes the graph input), and each node has
exactly one output.  A list satisfying this has no dangling references,
no branching and no cycles. -/
def isChain (source : String) : List Node → Bool
  | [] => true
  | n :: rest =>
    n.inputs == [source] &&
      (match n.outputs with
       | [out] => isChain out rest
       | _ => false)

/-!  Helper lemmas (shared by several claim theorems). -/

/-- The style branch of any descriptor is one of the six literal node
lists of the `if/elif/else` chain. -/
theorem styleNodes_cases (s : String) :
    styleNodes s =
      [{ opType := "Mul", inputs := ["normalized"], outputs := ["colored"],
         name := "color_enhance",
         attrsValue := some (.perChannel [1.4, 1.2, 1.1]) },
       { opType := "Add", inputs := ["colored"], outputs := ["styled"],
         name := "add_effects", attrsValue := some (.scalar 0.1) }] ∨
    styleNodes s =
      [{ opType := "Mul", inputs := ["normalized"], outputs := ["contrast"],
         name := "contrast", attrsValue := some (.scalar 1.5) },
       { opType := "Add", inputs := ["contrast"], outputs := ["styled"],
         name := "add_geometric", attrsValue := some (.scalar 0.2) }] ∨
    styleNodes s =
      [{ opType := "Mul", inputs := ["normalized"], outputs := ["neon"],
         name := "neon_scale",
         attrsValue := some (.perChannel [1.3, 0.8, 1.5]) },
       { opType := "Add", inputs := ["neon"], outputs := ["styled"],
         name := "add_glow", attrsValue := some (.scalar 0.2) }] ∨
    styleNodes s =
      [{ opType := "Mul", inputs := ["normalized"], outputs := ["soft"],
         name := "soft_scale", attrsValue := some (.scalar 1.1) },
       { opType := "Add", inputs := ["soft"], outputs := ["styled"],
         name := "add_impressionist", attrsValue := some (.scalar 0.05) }] ∨
    styleNodes s =
      [{ opType := "Mul", inputs := ["normalized"], outputs := ["saturated"],
         name := "saturate", attrsValue := some (.scalar 1.3) },
       { opType := "Add", inputs := ["saturated"], outputs := ["styled"],
         name := "add_anime", attrsValue := some (.scalar 0.1) }] ∨
    styleNodes s =
      [{ opType := "Identity", inputs := ["normalized"], outputs := ["styled"],
         name := "identity" }] := by
  unfold styleNodes
  by_cases h1 : containsSub s "Van Gogh" = true
  · simp [h1]
  by_cases h2 : containsSub s "Picasso" = true
  · simp [h1, h2]
  by_cases h3 : containsSub s "Cyberpunk" = true
  · simp [h1, h2, h3]
  by_cases h4 : containsSub s "Monet" = true
  · simp [h1, h2, h3, h4]
  by_cases h5 : containsSub s "Anime" = true
  · simp [h1, h2, h3, h4, h5]
  · simp [h1, h2, h3, h4, h5]

/-- If no known substring occurs in the descriptor, the style branch is
the single `Identity` node. -/
theorem styleNodes_default (s : String)
    (h1 : containsSub s "Van Gogh" = false)
    (h2 : containsSub s "Picasso" = false)
    (h3 : containsSub s "Cyberpunk" = false)
    (h4 : containsSub s "Monet" = false)
    (h5 : containsSub s "Anime" = false) :
    styleNodes s =
      [{ opType := "Identity", inputs := ["normalized"], outputs := ["styled"],
         name := "identity" }] := by
  unfold styleNodes
  simp [h1, h2, h3, h4, h5]

/-!  Claim theorems. -/

/-- C1: the graph builder selects the style branch by checking, in order,
whether the descriptor contains one of the five substrings "Van Gogh",
"Picasso", "Cyberpunk", "Monet", "Anime", first match winning; the
matched branch contributes exactly one scale (`Mul`) node and one offset
(`Add`) node with that branch's hard-coded constants (Van Gogh: scale
[1.4,1.2,1.1], add 0.1; Picasso: scale 1.5, add 0.2; Cyberpunk: scale
[1.3,0.8,1.5], add 0.2; Monet: scale 1.1, add 0.05; Anime: scale 1.3,
add 0.1), so the full graph is normalize, the branch's Mul, the branch's
Add, clamp, denormalize. -/
theorem branch_dispatch_constants (s : String) :
    (containsSub s "Van Gogh" = true →
      (buildGraph s).nodes =
        [norm_node,
         { opType := "Mul", inputs := ["normalized"], outputs := ["colored"],
           name := "color_enhance",
           attrsValue := some (.perChannel [1.4, 1.2, 1.1]) },
         { opType := "Add", inputs := ["colored"], outputs := ["styled"],
           name := "add_effects", attrsValue := some (.scalar 0.1) },
         clamp_node, denorm_node]) ∧
    (containsSub s "Van Gogh" = false → containsSub s "Picasso" = true →
      (buildGraph s).nodes =
        [norm_node,
         { opType := "Mul", inputs := ["normalized"], outputs := ["contrast"],
           name := "contrast", attrsValue := some (.scalar 1.5) },
         { opType := "Add", inputs := ["contrast"], outputs := ["styled"],
           name := "add_geometric", attrsValue := some (.scalar 0.2) },
         clamp_node, denorm_node]) ∧
    (containsSub s "Van Gogh" = false → containsSub s "Picasso" = false →
     containsSub s "Cyberpunk" = true →
      (buildGraph s).nodes =
        [norm_node,
         { opType := "Mul", inputs := ["normalized"], outputs := ["neon"],
           name := "neon_scale",
           attrsValue := some (.perChannel [1.3, 0.8, 1.5]) },
         { opType := "Add", inputs := ["neon"], outputs := ["styled"],
           name := "add_glow", attrsValue := some (.scalar 0.2) },
         clamp_node, denorm_node]) ∧
    (containsSub s "Van Gogh" = false → containsSub s "Picasso" = false →
     containsSub s "Cyberpunk" = false → containsSub s "Monet" = true →
      (buildGraph s).nodes =
        [norm_node,
         { opType := "Mul", inputs := ["normalized"], outputs := ["soft"],
           name := "soft_scale", attrsValue := some (.scalar 1.1) },
         { opType := "Add", inputs := ["soft"], outputs := ["styled"],
           name := "add_impressionist", attrsValue := some (.scalar 0.05) },
         clamp_node, denorm_node]) ∧
    (containsSub s "Van Gogh" = false → containsSub s "Picasso" = false →
     containsSub s "Cyberpunk" = false → containsSub s "Monet" = false →
     containsSub s "Anime" = true →
      (buildGraph s).nodes =
        [norm_node,
         { opType := "Mul", inputs := ["normalized"], outputs := ["saturated"],
           name := "saturate", attrsValue := some (.scalar 1.3) },
         { opType := "Add", inputs := ["saturated"], outputs := ["styled"],
           name := "add_anime", attrsValue := some (.scalar 0.1) },
         clamp_node, denorm_node]) := by
  refine ⟨?_, ?_, ?_, ?_, ?_⟩
  · intro h1
    show norm_node :: styleNodes s ++ [clamp_node, denorm_node] = _
    unfold styleNodes
    simp [h1]
  · intro h1 h2
    show norm_node :: styleNodes s ++ [clamp_node, denorm_node] = _
    unfold styleNodes
    simp [h1, h2]
  · intro h1 h2 h3
    show norm_node :: styleNodes s ++ [clamp_node, denorm_node] = _
    unfold styleNodes
    simp [h1, h2, h3]
  · intro h1 h2 h3 h4
    show norm_node :: styleNodes s ++ [clamp_node, denorm_node] = _
    unfold styleNodes
    simp [h1, h2, h3, h4]
  · intro h1 h2 h3 h4 h5
    show norm_node :: styleNodes s ++ [clamp_node, denorm_node] = _
    unfold styleNodes
    simp [h1, h2, h3, h4, h5]

/-- Witness for C1: the Van Gogh conjunct applied at the descriptor
"Van Gogh - Starry Night". -/
theorem branch_dispatch_constants_witness :
    (buildGraph "Van Gogh - Starry Night").nodes =
      [norm_node,
       { opType := "Mul", inputs := ["normalized"], outputs := ["colored"],
         name := "color_enhance",
         attrsValue := some (.perChannel [1.4, 1.2, 1.1]) },
       { opType := "Add", inputs := ["colored"], outputs := ["styled"],
         name := "add_effects", attrsValue := some (.scalar 0.1) },
       clamp_node, denorm_node] :=
  (branch_dispatch_constants "Van Gogh - Starry Night").1 (by decide)

/-- C2, as stated, is false: for "Picasso - Cubist" the generated graph
has 5 nodes, not 6. -/
theorem picasso_cubist_six_nodes_cex :
    ¬ ((buildGraph "Picasso - Cubist").nodes.length = 6) := by decide

/-- C2 (amended: the graph contains exactly 5 nodes, not 6): for the
descriptor "Picasso - Cubist" the output path is
public/models/picasso_cubist.onnx and the graph holds exactly 5 nodes,
in order normalize (Div), contrast (Mul by 1.5), add_geometric
(Add 0.2), clamp (Clip to [0,1]), denormalize (Mul by 255), the branch
selection matching exactly once, via the "Picasso" substring. -/
theorem picasso_cubist_graph :
    outputPathFor "Picasso - Cubist" = "public/models/picasso_cubist.onnx" ∧
    (buildGraph "Picasso - Cubist").nodes =
      [norm_node,
       { opType := "Mul", inputs := ["normalized"], outputs := ["contrast"],
         name := "contrast", attrsValue := some (.scalar 1.5) },
       { opType := "Add", inputs := ["contrast"], outputs := ["styled"],
         name := "add_geometric", attrsValue := some (.scalar 0.2) },
       clamp_node, denorm_node] ∧
    (buildGraph "Picasso - Cubist").nodes.length = 5 ∧
    containsSub "Picasso - Cubist" "Van Gogh" = false ∧
    containsSub "Picasso - Cubist" "Picasso" = true ∧
    containsSub "Picasso - Cubist" "Cyberpunk" = false ∧
    containsSub "Picasso - Cubist" "Monet" = false ∧
    containsSub "Picasso - Cubist" "Anime" = false := by
  refine ⟨rfl, rfl, rfl, ?_, ?_, ?_, ?_, ?_⟩ <;> decide

/-- C3: a descriptor containing none of the five known substrings yields
a 4-node graph: normalize, identity, clamp, denormalize. -/
theorem unmatched_style_identity_graph (s : String)
    (h1 : containsSub s "Van Gogh" = false)
    (h2 : containsSub s "Picasso" = false)
    (h3 : containsSub s "Cyberpunk" = false)
    (h4 : containsSub s "Monet" = false)
    (h5 : containsSub s "Anime" = false) :
    (buildGraph s).nodes =
      [norm_node,
       { opType := "Identity", inputs := ["normalized"], outputs := ["styled"],
         name := "identity" },
       clamp_node, denorm_node] ∧
    (buildGraph s).nodes.length = 4 := by
  have h : styleNodes s =
      [{ opType := "Identity", inputs := ["normalized"], outputs := ["styled"],
         name := "identity" }] :=
    styleNodes_default s h1 h2 h3 h4 h5
  constructor
  · show norm_node :: styleNodes s ++ [clamp_node, denorm_node] = _
    rw [h]
    rfl
  · show (norm_node :: styleNodes s ++ [clamp_node, denorm_node]).length = 4
    rw [h]
    rfl

/-- Witness for C3 at the descriptor "Unknown Style". -/
theorem unmatched_style_identity_graph_witness :
    (buildGraph "Unknown Style").nodes =
      [norm_node,
       { opType := "Identity", inputs := ["normalized"], outputs := ["styled"],
         name := "identity" },
       clamp_node, denorm_node] ∧
    (buildGraph "Unknown Style").nodes.length = 4 :=
  unmatched_style_identity_graph "Unknown Style"
    (by decide) (by decide) (by decide) (by decide) (by decide)

/-- C5: for every style descriptor, the declared input and output tensor
shapes both equal [1,3,256,256]. -/
theorem fixed_io_shape (s : String) :
    (buildGraph s).inputs = [input_tensor] ∧
    (buildGraph s).outputs = [output_tensor] ∧
    input_tensor.shape = [1, 3, 256, 256] ∧
    output_tensor.shape = [1, 3, 256, 256] :=
  ⟨rfl, rfl, rfl, rfl⟩

/-- C6: for every style descriptor, the node list forms a single linear
chain from the graph's declared input name: each node consumes exactly
the single output of its predecessor (the first consumes the graph
input), so there are no dangling references, no branching and no
cycles. -/
theorem graph_linear_chain (s : String) :
    (buildGraph s).inputs = [input_tensor] ∧
    isChain input_tensor.name (buildGraph s).nodes = true := by
  refine ⟨rfl, ?_⟩
  show isChain "input" (norm_node :: styleNodes s ++ [clamp_node, denorm_node]) = true
  rcases styleNodes_cases s with h | h | h | h | h | h <;> rw [h] <;> rfl

/-- C8: for every style descriptor, the emitted normalization node is a
`Div` named "normalize" constructed with the single input name "input"
and no constant operand bound: the divisor 255 is never attached. -/
theorem normalize_node_unbound_divisor (s : String) :
    (buildGraph s).nodes.head? =
      some { opType := "Div", inputs := ["input"], outputs := ["normalized"],
             name := "normalize", attrsValue := none,
             clipMin := none, clipMax := none } :=
  rfl

/-- C4: each built-in style is written to
`public/models/<slug>.onnx`, slug = descriptor lower-cased with " - "
then remaining spaces replaced by "_"; a run with no failures produces
the model artifact at exactly that path for all five styles, whatever
the initial filesystem contents. -/
theorem builtin_styles_slugged_paths (fs0 : FS) :
    styles.map outputPathFor =
      ["public/models/van_gogh_starry_night.onnx",
       "public/models/picasso_cubist.onnx",
       "public/models/cyberpunk_neon.onnx",
       "public/models/monet_water_lilies.onnx",
       "public/models/anime_studio_ghibli.onnx"] ∧
    (mainRun noFail fs0).fs "public/models/van_gogh_starry_night.onnx" =
      some (buildModel "Van Gogh - Starry Night") ∧
    (mainRun noFail fs0).fs "public/models/picasso_cubist.onnx" =
      some (buildModel "Picasso - Cubist") ∧
    (mainRun noFail fs0).fs "public/models/cyberpunk_neon.onnx" =
      some (buildModel "Cyberpunk Neon") ∧
    (mainRun noFail fs0).fs "public/models/monet_water_lilies.onnx" =
      some (buildModel "Monet - Water Lilies") ∧
    (mainRun noFail fs0).fs "public/models/anime_studio_ghibli.onnx" =
      some (buildModel "Anime Studio Ghibli") :=
  ⟨rfl, rfl, rfl, rfl, rfl, rfl⟩

/-- The console line produced for one style: the failure message if the
oracle raises for it, else the success message. -/
def msgFor (failAt : String → Option String) (style : String) : String :=
  match failAt style with
  | some e => "Failed to create model for " ++ style ++ ": " ++ e
  | none => "Created ONNX model: " ++ outputPathFor style

/-- One loop iteration appends exactly its style's console line. -/
theorem processStyle_out (failAt : String → Option String)
    (st : RunState) (style : String) :
    (processStyle failAt st style).out = st.out ++ [msgFor failAt style] := by
  cases h : failAt style <;> simp [processStyle, create_run, msgFor, h]

/-- The console output of a full run: one line per style in list order,
then the completion message. -/
theorem mainRun_out (failAt : String → Option String) (fs0 : FS) :
    (mainRun failAt fs0).out =
      [msgFor failAt "Van Gogh - Starry Night",
       msgFor failAt "Picasso - Cubist",
       msgFor failAt "Cyberpunk Neon",
       msgFor failAt "Monet - Water Lilies",
       msgFor failAt "Anime Studio Ghibli",
       "Model generation complete!"] := by
  simp [mainRun, styles, List.foldl, processStyle_out]

/-- C7: exceptions are caught at per-style granularity: a style whose
handling raises `e` gets the line "Failed to create model for <style>:
<e>" and writes nothing, every non-failing style still gets its
"Created ONNX model: <path>" line, and the final completion message is
printed last regardless of how many styles failed. -/
theorem per_style_exception_handling
    (failAt : String → Option String) (fs0 : FS) :
    ((mainRun failAt fs0).out.getLast? = some "Model generation complete!") ∧
    (∀ style e, style ∈ styles → failAt style = some e →
      ("Failed to create model for " ++ style ++ ": " ++ e) ∈
        (mainRun failAt fs0).out) ∧
    (∀ style, style ∈ styles → failAt style = none →
      ("Created ONNX model: " ++ outputPathFor style) ∈
        (mainRun failAt fs0).out) ∧
    (∀ style path e st, failAt style = some e →
      create_run failAt style path st = .error e) := by
  refine ⟨?_, ?_, ?_, ?_⟩
  · rw [mainRun_out]
    rfl
  · intro style e hmem hfail
    rw [mainRun_out]
    simp only [styles, List.mem_cons, List.not_mem_nil, or_false] at hmem
    rcases hmem with h | h | h | h | h <;> subst h <;> simp [msgFor, hfail]
  · intro style hmem hfail
    rw [mainRun_out]
    simp only [styles, List.mem_cons, List.not_mem_nil, or_false] at hmem
    rcases hmem with h | h | h | h | h <;> subst h <;> simp [msgFor, hfail]
  · intro style path e st hfail
    simp [create_run, hfail]

/-- An exception oracle that raises only for the Monet style. -/
def failAtMonet : String → Option String :=
  fun s => if s = "Monet - Water Lilies" then some "disk full" else none

/-- An initially empty filesystem. -/
def emptyFS : FS := fun _ => none

/-- Witness for C7: in a run where only the Monet style raises, its
failure line is printed, the Picasso style still succeeds with its
success line, and the completion message is last. -/
theorem per_style_exception_handling_witness :
    ("Failed to create model for " ++ "Monet - Water Lilies" ++ ": " ++
        "disk full") ∈ (mainRun failAtMonet emptyFS).out ∧
    ("Created ONNX model: " ++ outputPathFor "Picasso - Cubist") ∈
      (mainRun failAtMonet emptyFS).out ∧
    (mainRun failAtMonet emptyFS).out.getLast? =
      some "Model generation complete!" :=
  ⟨(per_style_exception_handling failAtMonet emptyFS).2.1
      "Monet - Water Lilies" "disk full" (by decide) rfl,
   (per_style_exception_handling failAtMonet emptyFS).2.2.1
      "Picasso - Cubist" (by decide) rfl,
   (per_style_exception_handling failAtMonet emptyFS).1⟩

/-- C9: the builder is deterministic: for the same style descriptor and
output path, two runs from any two prior states produce the same
artifact at that path, namely the model built purely from the
descriptor; no run-dependent input influences it. -/
theorem deterministic_artifact (style path : String) (st₁ st₂ : RunState) :
    (create_run noFail style path st₁).map (fun st => st.fs path) =
      (create_run noFail style path st₂).map (fun st => st.fs path) ∧
    (create_run noFail style path st₁).map (fun st => st.fs path) =
      .ok (some (buildModel style)) ∧
    (buildModel style).graph = buildGraph style := by
  refine ⟨?_, ?_, rfl⟩ <;> simp [create_run, noFail, writeFile, Except.map]

/-- C10: substring dispatch is case-sensitive: a descriptor containing a
known style name only in a different letter case (its lower-casing
contains a lower-cased style name, but none of the five exact
substrings occur) falls through to the default identity branch,
yielding the 4-node identity graph. -/
theorem case_sensitive_dispatch (s : String)
    (_hcase : containsSub (pyLower s) "van gogh" = true ∨
             containsSub (pyLower s) "picasso" = true ∨
             containsSub (pyLower s) "cyberpunk" = true ∨
             containsSub (pyLower s) "monet" = true ∨
             containsSub (pyLower s) "anime" = true)
    (h1 : containsSub s "Van Gogh" = false)
    (h2 : containsSub s "Picasso" = false)
    (h3 : containsSub s "Cyberpunk" = false)
    (h4 : containsSub s "Monet" = false)
    (h5 : containsSub s "Anime" = false) :
    (buildGraph s).nodes =
      [norm_node,
       { opType := "Identity", inputs := ["normalized"], outputs := ["styled"],
         name := "identity" },
       clamp_node, denorm_node] := by
  have h := styleNodes_default s h1 h2 h3 h4 h5
  show norm_node :: styleNodes s ++ [clamp_node, denorm_node] = _
  rw [h]
  rfl

/-- Witness for C10 at the descriptor "van gogh starry night". -/
theorem case_sensitive_dispatch_witness :
    (buildGraph "van gogh starry night").nodes =
      [norm_node,
       { opType := "Identity", inputs := ["normalized"], outputs := ["styled"],
         name := "identity" },
       clamp_node, denorm_node] :=
  case_sensitive_dispatch "van gogh starry night"
    (Or.inl (by decide)) (by decide) (by decide) (by decide) (by decide)
    (by decide)

end StyleTransferGen
